import Mathlib

/-!
Verification development for the uptest test-case synthesis engine
(upbound/official-providers-ci).  The Go sources embedded here:

* `internal/config/config.go` — the data model (`TestCase`, `Resource`,
  annotation keys).
* the `Render` function of `internal/templates/renderer.go` (skip-flag
  handling over the eight phase files).
* the per-phase template bodies.  The `.tmpl` files themselves are not
  part of the source snapshot; each template body below is modelled from
  the spec (§4.3) and pinned, byte for byte, by the expected outputs of
  `TestRender` / `TestRenderWithSkipDelete` in
  `internal/templates/renderer_test.go`, which are part of the snapshot.
* `prepareConfig`, `convertToJSONPath` of `pkg/runner.go`.
* the manifest-filtering loop of `prepareManifests` in
  `internal/templates/embed.go`.
* the manifest-path guard of `e2eTests` in `cmd/uptest/main.go`.

Machine integers are modelled as `Int` (no arithmetic in the claims comes
near overflow); Go map iteration order is modelled by the order of an
association list.
-/

namespace Uptest

/-- `config.Resource`: a Kubernetes object to be tested and asserted by
uptest (internal/config/config.go). -/
structure Resource where
  Name : String := ""
  Namespace : String := ""
  KindGroup : String := ""
  YAML : String := ""
  Timeout : Int := 0
  Conditions : List String := []
  PreAssertScriptPath : String := ""
  PostAssertScriptPath : String := ""
  PreDeleteScriptPath : String := ""
  PostDeleteScriptPath : String := ""
  UpdateParameter : String := ""
  UpdateAssertKey : String := ""
  UpdateAssertValue : String := ""
  SkipImport : Bool := false
  Root : Bool := false
  deriving Repr, DecidableEq

/-- `config.TestCase`: a test case to be run by kuttl
(internal/config/config.go). -/
structure TestCase where
  Timeout : Int := 0
  SetupScriptPath : String := ""
  TeardownScriptPath : String := ""
  SkipUpdate : Bool := false
  SkipImport : Bool := false
  OnlyCleanUptestResources : Bool := false
  deriving Repr, DecidableEq

/-- Join a list of lines into file text, each line terminated by a newline,
mirroring the line-oriented output of the Go text templates. -/
def joinLines (ls : List String) : String :=
  String.join (ls.map (fun l => l ++ "\n"))

/-- The template guard `eq .KindGroup "secret."`: a resource whose kind/group
is the generic `Secret` type (kind `Secret`, empty group) is skipped by every
per-resource command loop. -/
def nonSecret (r : Resource) : Bool :=
  r.KindGroup ≠ "secret."

/-- ` --namespace <ns>` suffix, present exactly when the resource has a
non-empty namespace. -/
def nsFlag (r : Resource) : String :=
  if r.Namespace = "" then "" else " --namespace " ++ r.Namespace

/-- An optional `- command: <path>` line for a hook script path; no line when
the path is empty (template `if`-guard on the field). -/
def optCmd (p : String) : List String :=
  if p = "" then [] else ["- command: " ++ p]

/-- Modelled from the spec (§4.3 apply phase; `00-apply.yaml.tmpl` is not in
the source snapshot): optional setup-script step, then each resource's
manifest preceded by a document separator.  Pinned by the expected
`00-apply.yaml` values in renderer_test.go. -/
def applyFile (tc : TestCase) (rs : List Resource) : String :=
  "# This file belongs to the resource apply step.\n" ++
    (if tc.SetupScriptPath = "" then ""
     else "apiVersion: kuttl.dev/v1beta1\nkind: TestStep\ncommands:\n- command: " ++
       tc.SetupScriptPath ++ "\n") ++
    String.join (rs.map (fun r => "---\n" ++ r.YAML))

/-- One `kubectl wait --for=condition=...` command line.  The timeout printed
is the test case's timeout `t` (renderer_test.go expects `--timeout 10s` for a
resource whose own `Timeout` is zero in a test case with `Timeout: 10`). -/
def waitLine (t : Int) (r : Resource) (c : String) : String :=
  "- command: ${KUBECTL} wait " ++ r.KindGroup ++ "/" ++ r.Name ++
    " --for=condition=" ++ c ++ " --timeout " ++ toString t ++ "s" ++ nsFlag r

/-- Modelled from the spec (§4.3 assert-apply; `00-assert.yaml.tmpl` is not in
the source snapshot): per non-secret resource, the optional pre-assert hook,
one wait command per condition, and the optional post-assert hook. -/
def applyAssertResLines (t : Int) (r : Resource) : List String :=
  optCmd r.PreAssertScriptPath ++ r.Conditions.map (waitLine t r) ++
    optCmd r.PostAssertScriptPath

/-- Fixed opening of `00-assert.yaml`: marker annotate command and the two
best-effort diagnostic dumps. -/
def applyAssertHeader (tc : TestCase) : List String :=
  ["# This assert file belongs to the resource apply step.",
   "apiVersion: kuttl.dev/v1beta1",
   "kind: TestAssert",
   "timeout: " ++ toString tc.Timeout,
   "commands:",
   "- command: ${KUBECTL} annotate managed --all upjet.upbound.io/test=true --overwrite",
   "- script: echo \"Dump MR manifests for the apply assertion step:\"; ${KUBECTL} get managed -o yaml",
   "- script: echo \"Dump Claim manifests for the apply assertion step:\" || ${KUBECTL} get claim --all-namespaces -o yaml"]

/-- Lines of `00-assert.yaml`. -/
def applyAssertLines (tc : TestCase) (rs : List Resource) : List String :=
  applyAssertHeader tc ++ (rs.filter nonSecret).flatMap (applyAssertResLines tc.Timeout)

/-- Lines of `01-update.yaml`: an empty scaffold step (spec §4.3 update phase;
pinned by renderer_test.go). -/
def updateLines : List String :=
  ["# This file belongs to the resource update step.",
   "apiVersion: kuttl.dev/v1beta1",
   "kind: TestStep",
   "commands:"]

/-- Modelled from the spec (§4.3 assert-update; `01-assert.yaml.tmpl` is not
in the source snapshot): one assertion command per non-secret resource
carrying an `UpdateAssertKey`/`UpdateAssertValue` pair.  The exact command
shape is not pinned by the tests (their resources carry no update
parameter). -/
def updateAssertLine (r : Resource) : String :=
  "- script: [ \"$(${KUBECTL} get " ++ r.KindGroup ++ "/" ++ r.Name ++ nsFlag r ++
    " -o=jsonpath=\x27\x7b" ++ r.UpdateAssertKey ++ "\x7d\x27)\" == \"" ++
    r.UpdateAssertValue ++ "\" ]"

/-- Lines of `01-assert.yaml`. -/
def updateAssertLines (tc : TestCase) (rs : List Resource) : List String :=
  ["# This assert file belongs to the resource update step.",
   "apiVersion: kuttl.dev/v1beta1",
   "kind: TestAssert",
   "timeout: " ++ toString tc.Timeout,
   "commands:",
   "- script: echo \"Dump MR manifests for the update assertion step:\"; ${KUBECTL} get managed -o yaml"] ++
  ((rs.filter nonSecret).filter (fun r => r.UpdateAssertKey ≠ "")).map updateAssertLine

/-- Gate for the import phase: non-secret, cluster-scoped (empty namespace),
and not excluded via `SkipImport` (spec §4.3 import phase; pinned by
renderer_test.go, where the namespaced claim is omitted from
`02-import.yaml`/`02-assert.yaml`). -/
def importGated (r : Resource) : Bool :=
  nonSecret r && r.Namespace = "" && !r.SkipImport

/-- Modelled from the spec (§4.3 import phase; `02-import.yaml.tmpl` is not in
the source snapshot): scale controllers to zero, clear status and store the
old external id per gated resource, scale back up. -/
def importLines (rs : List Resource) : List String :=
  ["# This file belongs to the resource import step.",
   "apiVersion: kuttl.dev/v1beta1",
   "kind: TestStep",
   "commands:",
   "- command: ${KUBECTL} scale deployment crossplane -n ${CROSSPLANE_NAMESPACE} --replicas=0",
   "- script: ${KUBECTL} -n ${CROSSPLANE_NAMESPACE} get deploy --no-headers -o custom-columns=\":metadata.name\" | grep \"provider-\" | xargs ${KUBECTL} -n ${CROSSPLANE_NAMESPACE} scale deploy --replicas=0"] ++
  (rs.filter importGated).flatMap (fun r =>
    ["- command: ${KUBECTL} --subresource=status patch " ++ r.KindGroup ++ "/" ++ r.Name ++
       " --type=merge -p \x27\x7b\"status\":\x7b\"conditions\":[]\x7d\x7d\x27",
     "- script: ${KUBECTL} annotate " ++ r.KindGroup ++ "/" ++ r.Name ++
       " uptest-old-id=$(${KUBECTL} get " ++ r.KindGroup ++ "/" ++ r.Name ++
       " -o=jsonpath=\x27\x7b.status.atProvider.id\x7d\x27) --overwrite"]) ++
  ["- command: ${KUBECTL} scale deployment crossplane -n ${CROSSPLANE_NAMESPACE} --replicas=1",
   "- script: ${KUBECTL} -n ${CROSSPLANE_NAMESPACE} get deploy --no-headers -o custom-columns=\":metadata.name\" | grep \"provider-\" | xargs ${KUBECTL} -n ${CROSSPLANE_NAMESPACE} scale deploy --replicas=1"]

/-- Modelled from the spec (§4.3 assert-import; `02-assert.yaml.tmpl` is not
in the source snapshot): per gated resource, a wait on its primary (first)
condition and a shell-equality check of the stored external id. -/
def importAssertResLines (t : Int) (r : Resource) : List String :=
  (match r.Conditions with
   | [] => []
   | c :: _ => [waitLine t r c]) ++
  ["- script: new_id=\"$(${KUBECTL} get " ++ r.KindGroup ++ "/" ++ r.Name ++
     " -o=jsonpath=\x27\x7b.status.atProvider.id\x7d\x27)\" && old_id=\"$(${KUBECTL} get " ++
     r.KindGroup ++ "/" ++ r.Name ++
     " -o=jsonpath=\x27\x7b.metadata.annotations.uptest-old-id\x7d\x27)\" && [ \"$new_id\" = \"$old_id\" ]"]

/-- Lines of `02-assert.yaml`. -/
def importAssertLines (tc : TestCase) (rs : List Resource) : List String :=
  ["# This assert file belongs to the resource import step.",
   "apiVersion: kuttl.dev/v1beta1",
   "kind: TestAssert",
   "timeout: " ++ toString tc.Timeout,
   "commands:",
   "- script: echo \"Dump MR manifests for the import assertion step:\"; ${KUBECTL} get managed -o yaml"] ++
  (rs.filter importGated).flatMap (importAssertResLines tc.Timeout)

/-- The per-resource delete command: non-blocking (`--wait=false`), idempotent
(`--ignore-not-found`), namespace-qualified exactly when the resource has a
namespace. -/
def deleteCmdLine (r : Resource) : String :=
  "- command: ${KUBECTL} delete " ++ r.KindGroup ++ "/" ++ r.Name ++
    " --wait=false" ++ nsFlag r ++ " --ignore-not-found"

/-- Modelled from the spec (§4.3 delete phase; `03-delete.yaml.tmpl` is not in
the source snapshot): per non-secret resource, the optional pre-delete hook,
the delete command, and the optional post-delete hook.  Pinned by
renderer_test.go, whose expected `03-delete.yaml` lists the resources in apply
order. -/
def deleteResLines (r : Resource) : List String :=
  optCmd r.PreDeleteScriptPath ++ [deleteCmdLine r] ++ optCmd r.PostDeleteScriptPath

/-- Lines of `03-delete.yaml`. -/
def deleteLines (rs : List Resource) : List String :=
  ["# This file belongs to the resource delete step.",
   "apiVersion: kuttl.dev/v1beta1",
   "kind: TestStep",
   "commands:"] ++
  (rs.filter nonSecret).flatMap deleteResLines

/-- Per-resource deletion wait of `03-assert.yaml`; renderer_test.go expects a
`script` entry for namespaced resources and a `command` entry otherwise. -/
def deleteWaitLine (t : Int) (r : Resource) : String :=
  if r.Namespace = "" then
    "- command: ${KUBECTL} wait " ++ r.KindGroup ++ "/" ++ r.Name ++
      " --for=delete --timeout " ++ toString t ++ "s"
  else
    "- script: ${KUBECTL} wait " ++ r.KindGroup ++ "/" ++ r.Name ++
      " --for=delete --timeout " ++ toString t ++ "s --namespace " ++ r.Namespace

/-- Lines of `03-assert.yaml`: diagnostics, per-resource deletion waits, the
catch-all managed-resource wait, then the optional teardown script. -/
def deleteAssertLines (tc : TestCase) (rs : List Resource) : List String :=
  ["# This assert file belongs to the resource delete step.",
   "apiVersion: kuttl.dev/v1beta1",
   "kind: TestAssert",
   "timeout: " ++ toString tc.Timeout,
   "commands:",
   "- script: echo \"Dump MR manifests for the delete assertion step:\"; ${KUBECTL} get managed -o yaml",
   "- script: echo \"Dump Claim manifests for the delete assertion step:\" || ${KUBECTL} get claim --all-namespaces -o yaml"] ++
  (rs.filter nonSecret).map (deleteWaitLine tc.Timeout) ++
  ["- command: ${KUBECTL} wait managed --all --for=delete --timeout " ++ toString tc.Timeout ++ "s"] ++
  optCmd tc.TeardownScriptPath

/-- The `fileTemplates` map of internal/templates/renderer.go, with each
template applied: the eight phase files and their rendered bodies. -/
def fileBodies (tc : TestCase) (rs : List Resource) : List (String × String) :=
  [("00-apply.yaml", applyFile tc rs),
   ("00-assert.yaml", joinLines (applyAssertLines tc rs)),
   ("01-update.yaml", joinLines updateLines),
   ("01-assert.yaml", joinLines (updateAssertLines tc rs)),
   ("02-import.yaml", joinLines (importLines rs)),
   ("02-assert.yaml", joinLines (importAssertLines tc rs)),
   ("03-delete.yaml", joinLines (deleteLines rs)),
   ("03-assert.yaml", joinLines (deleteAssertLines tc rs))]

/-- `strings.HasPrefix`, on the character lists of the two strings. -/
def goStartsWith (s pre : String) : Bool :=
  pre.data.isPrefixOf s.data

/-- `templates.Render` (internal/templates/renderer.go): renders the file map,
omitting `01-*` files when `tc.SkipUpdate`, `02-*` files when `tc.SkipImport`,
and `03-*` files when the `skipDelete` argument is set. -/
def Render (tc : TestCase) (rs : List Resource) (skipDelete : Bool) :
    List (String × String) :=
  (fileBodies tc rs).filter (fun nt =>
    !(tc.SkipUpdate && goStartsWith nt.1 "01-") &&
    !(tc.SkipImport && goStartsWith nt.1 "02-") &&
    !(skipDelete && goStartsWith nt.1 "03-"))

/-! ### JSON values and `convertToJSONPath` (pkg/runner.go)

Go's `json.Unmarshal` into `map[string]interface{}` produces nested maps;
`convertToJSONPath` iterates such a map with `range`, whose order Go leaves
unspecified.  A JSON object is modelled as an association list whose order is
the iteration order that `range` happened to produce; two lists that sort to
the same canonical form denote the same Go map. -/

/-- A decoded JSON value.  Numbers are modelled as integers (Go decodes into
`float64`; no claim involves non-integral numbers). -/
inductive Json where
  | obj : List (String × Json) → Json
  | arr : List Json → Json
  | str : String → Json
  | num : Int → Json
  | boolean : Bool → Json
  | null : Json
  deriving Repr

mutual

/-- Go's `fmt.Sprintf("%v", v)` on a decoded JSON value, as used by the
default branch of `convertToJSONPath`.  Only the scalar cases are reachable
from `convertToJSONPath` (its map case recurses instead). -/
def renderValue : Json → String
  | .obj es => "map[" ++ renderEntries es ++ "]"
  | .arr xs => "[" ++ renderElems xs ++ "]"
  | .str s => s
  | .num n => toString n
  | .boolean b => toString b
  | .null => "<nil>"

/-- Space-separated `key:value` rendering of map entries (`fmt` `%v`). -/
def renderEntries : List (String × Json) → String
  | [] => ""
  | [(k, v)] => k ++ ":" ++ renderValue v
  | (k, v) :: rest => k ++ ":" ++ renderValue v ++ " " ++ renderEntries rest

/-- Space-separated rendering of array elements (`fmt` `%v`). -/
def renderElems : List Json → String
  | [] => ""
  | [x] => renderValue x
  | x :: rest => renderValue x ++ " " ++ renderElems rest

end

/-- Fuel-indexed body of `convertToJSONPath`: take the first entry the map
range yields; if its value is a nested map, descend into it with the extended
path, otherwise return the path and the rendered value.  An empty map returns
the current path and an empty value.  The fuel only bounds the nesting depth
(the wrapper passes `sizeOf`, which always suffices —
`convertToJSONPathF_fuel` below); it is structural so that concrete runs
reduce in the kernel. -/
def convertToJSONPathF : Nat → List (String × Json) → String → String × String
  | _, [], currentPath => (currentPath, "")
  | f, (key, v) :: _, currentPath =>
    match v, f with
    | Json.obj es, Nat.succ f' => convertToJSONPathF f' es (currentPath ++ "." ++ key)
    | Json.obj _, 0 => (currentPath ++ "." ++ key, "")
    | _, _ => (currentPath ++ "." ++ key, renderValue v)

mutual

/-- An executable size of a JSON value, used as fuel. -/
def jsonFuel : Json → Nat
  | .obj es => entsFuel es + 1
  | .arr xs => elemsFuel xs + 1
  | .str _ => 1
  | .num _ => 1
  | .boolean _ => 1
  | .null => 1

/-- Fuel of an entry list. -/
def entsFuel : List (String × Json) → Nat
  | [] => 0
  | (_, v) :: rest => jsonFuel v + entsFuel rest + 1

/-- Fuel of an element list. -/
def elemsFuel : List Json → Nat
  | [] => 0
  | x :: xs => jsonFuel x + elemsFuel xs + 1

end

/-- `convertToJSONPath` (pkg/runner.go). -/
def convertToJSONPath (data : List (String × Json)) (currentPath : String) :
    String × String :=
  convertToJSONPathF (entsFuel data) data currentPath

/-- Executable strict lexicographic order on character lists (by code
point). -/
def charListLt : List Char → List Char → Bool
  | [], [] => false
  | [], _ :: _ => true
  | _ :: _, [] => false
  | a :: as, b :: bs =>
    if a.toNat < b.toNat then true
    else if b.toNat < a.toNat then false
    else charListLt as bs

/-- Executable strict lexicographic order on strings. -/
def strLtB (a b : String) : Bool :=
  charListLt a.data b.data

/-- Insert an entry into a key-sorted entry list (for the canonical form of a
JSON object). -/
def insertEntry (p : String × Json) : List (String × Json) → List (String × Json)
  | [] => [p]
  | q :: qs => if strLtB p.1 q.1 then p :: q :: qs else q :: insertEntry p qs

/-- Sort an entry list by key (insertion sort). -/
def sortEntries : List (String × Json) → List (String × Json)
  | [] => []
  | p :: ps => insertEntry p (sortEntries ps)

mutual

/-- Canonical form of a JSON value: every object's entries sorted by key.
Two association-list representations denote the same Go map exactly when
their canonical forms coincide. -/
def normalize : Json → Json
  | .obj es => .obj (sortEntries (normalizeEntries es))
  | .arr xs => .arr (normalizeList xs)
  | .str s => .str s
  | .num n => .num n
  | .boolean b => .boolean b
  | .null => .null

/-- `normalize` applied to each entry value. -/
def normalizeEntries : List (String × Json) → List (String × Json)
  | [] => []
  | (k, v) :: rest => (k, normalize v) :: normalizeEntries rest

/-- `normalize` applied to each array element. -/
def normalizeList : List Json → List Json
  | [] => []
  | x :: xs => normalize x :: normalizeList xs

end

mutual

/-- Every object nested anywhere in the value has exactly one entry. -/
def allSingle : Json → Bool
  | .obj [] => false
  | .obj [(_, v)] => allSingle v
  | .obj (_ :: _ :: _) => false
  | .arr xs => allSingleList xs
  | .str _ => true
  | .num _ => true
  | .boolean _ => true
  | .null => true

/-- `allSingle` over a list of array elements. -/
def allSingleList : List Json → Bool
  | [] => true
  | x :: xs => allSingle x && allSingleList xs

end

/-! ### A small JSON reader (model of `encoding/json.Unmarshal` into
`map[string]interface{}`, an external stdlib collaborator).  Escapes `\uXXXX`
and non-integral numbers are outside the model; no claim involves them. -/

/-- JSON insignificant whitespace. -/
def isWsChar (c : Char) : Bool :=
  c = ' ' || c = '\t' || c = '\n' || c = '\r'

/-- Drop leading JSON whitespace. -/
def skipWs : List Char → List Char
  | c :: cs => if isWsChar c then skipWs cs else c :: cs
  | [] => []

/-- The character denoted by a JSON escape after the backslash. -/
def escChar (e : Char) : Option Char :=
  match e with
  | '"' => some '"'
  | '\\' => some '\\'
  | '/' => some '/'
  | 'n' => some '\n'
  | 't' => some '\t'
  | 'r' => some '\r'
  | _ => none

/-- Read the body of a JSON string after the opening quote; returns the
decoded characters and the input after the closing quote. -/
def parseStrChars : Nat → List Char → Option (List Char × List Char)
  | _, '"' :: rest => some ([], rest)
  | Nat.succ f, '\\' :: e :: rest =>
    match escChar e with
    | none => none
    | some c =>
      match parseStrChars f rest with
      | none => none
      | some (cs, rem) => some (c :: cs, rem)
  | Nat.succ f, c :: rest =>
    match parseStrChars f rest with
    | none => none
    | some (cs, rem) => some (c :: cs, rem)
  | _, _ => none

/-- Value of a non-empty all-digit character list. -/
def natOfDigits (ds : List Char) : Option Nat :=
  if ds.isEmpty then none
  else if ds.all (fun c => c.isDigit) then
    some (ds.foldl (fun a c => a * 10 + (c.toNat - 48)) 0)
  else none

/-- Read a JSON integer token (optional minus sign, digits). -/
def parseIntTok (cs : List Char) : Option (Int × List Char) :=
  let (sgn, cs') := match cs with
    | '-' :: rest => (true, rest)
    | rest => (false, rest)
  let ds := cs'.takeWhile (fun c => c.isDigit)
  let rest := cs'.dropWhile (fun c => c.isDigit)
  (natOfDigits ds).map fun n => (if sgn then -(n : Int) else (n : Int), rest)

mutual

/-- Read one JSON value. -/
def parseValue : Nat → List Char → Option (Json × List Char)
  | 0, _ => none
  | Nat.succ f, cs =>
    match skipWs cs with
    | '\x7b' :: rest =>
      (match skipWs rest with
       | '\x7d' :: rem => some (Json.obj [], rem)
       | body => (parseEntries f body).map fun p => (Json.obj p.1, p.2))
    | '[' :: rest =>
      (match skipWs rest with
       | ']' :: rem => some (Json.arr [], rem)
       | body => (parseElems f body).map fun p => (Json.arr p.1, p.2))
    | '"' :: rest => (parseStrChars f rest).map fun p => (Json.str (String.mk p.1), p.2)
    | 't' :: 'r' :: 'u' :: 'e' :: rest => some (Json.boolean true, rest)
    | 'f' :: 'a' :: 'l' :: 's' :: 'e' :: rest => some (Json.boolean false, rest)
    | 'n' :: 'u' :: 'l' :: 'l' :: rest => some (Json.null, rest)
    | other => (parseIntTok other).map fun p => (Json.num p.1, p.2)

/-- Read the entries of a JSON object (after `{`, first key expected),
up to and including the closing `}`. -/
def parseEntries : Nat → List Char → Option (List (String × Json) × List Char)
  | 0, _ => none
  | Nat.succ f, cs =>
    match skipWs cs with
    | '"' :: rest =>
      (parseStrChars f rest).bind fun kp =>
        match skipWs kp.2 with
        | ':' :: vcs =>
          (parseValue f vcs).bind fun vp =>
            (match skipWs vp.2 with
             | ',' :: more =>
               (parseEntries f more).map fun ep =>
                 ((String.mk kp.1, vp.1) :: ep.1, ep.2)
             | '\x7d' :: rem => some ([(String.mk kp.1, vp.1)], rem)
             | _ => none)
        | _ => none
    | _ => none

/-- Read the elements of a JSON array (after `[`, first element expected),
up to and including the closing `]`. -/
def parseElems : Nat → List Char → Option (List Json × List Char)
  | 0, _ => none
  | Nat.succ f, cs =>
    (parseValue f cs).bind fun vp =>
      match skipWs vp.2 with
      | ',' :: more => (parseElems f more).map fun ep => (vp.1 :: ep.1, ep.2)
      | ']' :: rem => some ([vp.1], rem)
      | _ => none

end

/-- `json.Unmarshal([]byte(s), &data)` for `data : map[string]interface{}`:
the input must be one JSON object with nothing but whitespace after it. -/
def jsonParseObj (s : String) : Option (List (String × Json)) :=
  match parseValue (s.data.length + 2) s.data with
  | some (Json.obj es, rem) => if skipWs rem = [] then some es else none
  | _ => none

/-! ### Metadata extraction: `prepareConfig` (pkg/runner.go) -/

/-- `strings.Split` for a one-character separator (the source only splits on
`,` and `/`): splits around every separator occurrence; the empty string
yields `[""]`.  (Structurally recursive so that concrete runs reduce in the
kernel, unlike `String.splitOn`.) -/
def goSplitCharAux (sep : Char) : List Char → List Char → List String
  | [], acc => [String.mk acc.reverse]
  | c :: rest, acc =>
    if c = sep then String.mk acc.reverse :: goSplitCharAux sep rest []
    else goSplitCharAux sep rest (c :: acc)

/-- `strings.Split s sep` for the one-character separator `sep`. -/
def goSplitChar (sep : Char) (s : String) : List String :=
  goSplitCharAux sep s.data []

/-- `strings.ToLower` (ASCII; the identifiers involved are ASCII). -/
def goToLower (s : String) : String :=
  String.mk (s.data.map Char.toLower)

/-- `strconv.Atoi`: optional sign, one or more digits, nothing else.
(Go's 64-bit overflow failure is outside the model.) -/
def strconvAtoi (s : String) : Option Int :=
  match s.data with
  | '+' :: ds => (natOfDigits ds).map fun n => (n : Int)
  | '-' :: ds => (natOfDigits ds).map fun n => -(n : Int)
  | ds => (natOfDigits ds).map fun n => (n : Int)

/-- `config.AnnotationKeyTimeout`. -/
def AnnotationKeyTimeout : String := "uptest.upbound.io/timeout"

/-- `config.AnnotationKeyConditions`. -/
def AnnotationKeyConditions : String := "uptest.upbound.io/conditions"

/-- `config.AnnotationKeyPreAssertHook`. -/
def AnnotationKeyPreAssertHook : String := "uptest.upbound.io/pre-assert-hook"

/-- `config.AnnotationKeyPostAssertHook`. -/
def AnnotationKeyPostAssertHook : String := "uptest.upbound.io/post-assert-hook"

/-- `config.AnnotationKeyPreDeleteHook`. -/
def AnnotationKeyPreDeleteHook : String := "uptest.upbound.io/pre-delete-hook"

/-- `config.AnnotationKeyPostDeleteHook`. -/
def AnnotationKeyPostDeleteHook : String := "uptest.upbound.io/post-delete-hook"

/-- `config.AnnotationKeyUpdateParameter`. -/
def AnnotationKeyUpdateParameter : String := "uptest.upbound.io/update-parameter"

/-- The `upjet.upbound.io/manual-intervention` key checked by
`prepareManifests` (internal/templates/embed.go). -/
def annKeyManualIntervention : String := "upjet.upbound.io/manual-intervention"

/-- The options of `config.AutomatedTest` consumed by `prepareConfig`
(internal/config/config.go; fields concerning file layout and the external
kuttl invocation are omitted). -/
structure AutomatedTest where
  DefaultTimeout : Int := 0
  DefaultConditions : List String := []
  SetupScriptPath : String := ""
  TeardownScriptPath : String := ""
  SkipDelete : Bool := false
  OnlyCleanUptestResources : Bool := false
  deriving Repr, DecidableEq

/-- A decoded manifest (`config.Manifest`: the `unstructured` object's fields
consumed by the extractor, its source file path and its re-marshalled YAML
text). -/
structure ManifestObj where
  FilePath : String := ""
  Kind : String := ""
  Group : String := ""
  Version : String := ""
  Name : String := ""
  Namespace : String := ""
  Anns : List (String × String) := []
  YAML : String := ""
  deriving Repr, DecidableEq

/-- The last path element's directory plus the hook's relative path:
model of `filepath.Abs(filepath.Join(filepath.Dir(m.FilePath),
filepath.Clean(v)))` — dot-segment cleaning and working-directory
absolutization (external stdlib behavior) are not modelled; no claim
depends on the resulting path text. -/
def resolveHookPath (filePath v : String) : String :=
  (match (goSplitChar '/' filePath).dropLast with
   | [] => "."
   | parts => String.intercalate "/" parts) ++ "/" ++ v

/-- The `UPTEST_UPDATE_PARAMETER` environment block of `prepareConfig`
(pkg/runner.go lines 106-113): when the environment value is non-empty it is
stored and its JSON-path key/value pair derived; invalid JSON is an error. -/
def applyEnvUpdate (envUpdateParameter : String) (ex : Resource) :
    Except String Resource :=
  if envUpdateParameter = "" then .ok ex
  else
    match jsonParseObj envUpdateParameter with
    | none => .error "cannot unmarshal JSON"
    | some data =>
      let kv := convertToJSONPath data ""
      .ok { ex with UpdateParameter := envUpdateParameter
                    UpdateAssertKey := kv.1, UpdateAssertValue := kv.2 }

/-- The timeout-key block of `prepareConfig` (pkg/runner.go lines 117-125):
parse the value with `strconv.Atoi` (error when invalid), store it as the
resource timeout, and raise the running test-case timeout when exceeded. -/
def applyTimeoutAnn (m : ManifestObj) (tcTimeout : Int) (ex : Resource) :
    Except String (Resource × Int) :=
  match m.Anns.lookup AnnotationKeyTimeout with
  | none => .ok (ex, tcTimeout)
  | some v =>
    match strconvAtoi v with
    | none => .error "timeout value is not valid"
    | some t => .ok ({ ex with Timeout := t },
                     if t > tcTimeout then t else tcTimeout)

/-- The conditions-key block of `prepareConfig` (pkg/runner.go lines 127-129):
a present value replaces the condition list with its comma-split
(`strings.Split`, which yields `[""]` on the empty string). -/
def applyCondsAnn (m : ManifestObj) (ex : Resource) : Resource :=
  match m.Anns.lookup AnnotationKeyConditions with
  | none => ex
  | some v => { ex with Conditions := goSplitChar ',' v }

/-- The four hook-key blocks of `prepareConfig` (pkg/runner.go lines
131-157). -/
def applyHookAnns (m : ManifestObj) (ex : Resource) : Resource :=
  let ex1 := match m.Anns.lookup AnnotationKeyPreAssertHook with
    | none => ex
    | some v => { ex with PreAssertScriptPath := resolveHookPath m.FilePath v }
  let ex2 := match m.Anns.lookup AnnotationKeyPostAssertHook with
    | none => ex1
    | some v => { ex1 with PostAssertScriptPath := resolveHookPath m.FilePath v }
  let ex3 := match m.Anns.lookup AnnotationKeyPreDeleteHook with
    | none => ex2
    | some v => { ex2 with PreDeleteScriptPath := resolveHookPath m.FilePath v }
  match m.Anns.lookup AnnotationKeyPostDeleteHook with
  | none => ex3
  | some v => { ex3 with PostDeleteScriptPath := resolveHookPath m.FilePath v }

/-- The update-parameter-key block of `prepareConfig` (pkg/runner.go lines
159-166): a present value overrides the stored update parameter and the
derived JSON-path key/value pair; invalid JSON is an error. -/
def applyUpdateAnn (m : ManifestObj) (tcTimeout : Int) (ex : Resource) :
    Except String (Resource × Int) :=
  match m.Anns.lookup AnnotationKeyUpdateParameter with
  | none => .ok (ex, tcTimeout)
  | some v =>
    match jsonParseObj v with
    | none => .error "cannot unmarshal JSON"
    | some data =>
      let kv := convertToJSONPath data ""
      .ok ({ ex with UpdateParameter := v
                     UpdateAssertKey := kv.1, UpdateAssertValue := kv.2 },
           tcTimeout)

/-- The loop body of `prepareConfig` (pkg/runner.go) for one manifest: build
the base `config.Resource` (lower-cased `kind.group`, default timeout and
conditions), then apply the environment block and the annotation blocks in
source order.  Returns the resource and the updated running test-case
timeout. -/
def processManifest (opts : AutomatedTest) (envUpdateParameter : String)
    (tcTimeout : Int) (m : ManifestObj) : Except String (Resource × Int) :=
  let kg := goToLower (m.Kind ++ "." ++ m.Group)
  let ex0 : Resource :=
    { Name := m.Name, Namespace := m.Namespace, KindGroup := kg, YAML := m.YAML
      Timeout := opts.DefaultTimeout, Conditions := opts.DefaultConditions }
  match applyEnvUpdate envUpdateParameter ex0 with
  | .error e => .error e
  | .ok ex1 =>
    match applyTimeoutAnn m tcTimeout ex1 with
    | .error e => .error e
    | .ok (ex2, tcT2) =>
      applyUpdateAnn m tcT2 (applyHookAnns m (applyCondsAnn m ex2))

/-- The manifest loop of `prepareConfig`, threading the running test-case
timeout. -/
def prepareConfigGo (opts : AutomatedTest) (envUpdateParameter : String) :
    List ManifestObj → Int → Except String (Int × List Resource)
  | [], tcT => .ok (tcT, [])
  | m :: ms, tcT =>
    match processManifest opts envUpdateParameter tcT m with
    | .error e => .error e
    | .ok (r, tcT') =>
      match prepareConfigGo opts envUpdateParameter ms tcT' with
      | .error e => .error e
      | .ok (tcF, rs) => .ok (tcF, r :: rs)

/-- `prepareConfig` (pkg/runner.go): the test case starts from the default
timeout and the setup/teardown script paths, then every manifest is turned
into a resource. -/
def prepareConfig (opts : AutomatedTest) (envUpdateParameter : String)
    (manifests : List ManifestObj) : Except String (TestCase × List Resource) :=
  match prepareConfigGo opts envUpdateParameter manifests opts.DefaultTimeout with
  | .error e => .error e
  | .ok (tcT, rs) =>
    .ok ({ Timeout := tcT, SetupScriptPath := opts.SetupScriptPath
           TeardownScriptPath := opts.TeardownScriptPath }, rs)

/-! ### Manifest preparation: the filtering loop of `prepareManifests`
(internal/templates/embed.go) -/

/-- `GroupVersionKind().String()` of a decoded object
(`group/version, Kind=kind`). -/
def gvkString (u : ManifestObj) : String :=
  u.Group ++ "/" ++ u.Version ++ ", Kind=" ++ u.Kind

/-- The skip diagnostic printed by `prepareManifests` for an object carrying
the manual-intervention key with reason `v`. -/
def skipMessage (u : ManifestObj) (v : String) : String :=
  "Skipping " ++ gvkString u ++ " with name " ++ u.Name ++
    " since it requires the following manual intervention: " ++ v

/-- The decode loop body of `prepareManifests` over the already-decoded
objects of one injected file: objects carrying the manual-intervention key are
skipped with a diagnostic; every other object is kept (with the file's path)
in order.  (YAML decoding and re-marshalling are external collaborators,
modelled as already applied; their error paths are outside this loop's
skip logic.)  Returns the kept manifests and the emitted diagnostics. -/
def prepareManifestsFile (path : String) (objs : List ManifestObj) :
    List ManifestObj × List String :=
  match objs with
  | [] => ([], [])
  | u :: rest =>
    let (ms, logs) := prepareManifestsFile path rest
    match u.Anns.lookup annKeyManualIntervention with
    | some v => (ms, skipMessage u v :: logs)
    | none => ({ u with FilePath := path } :: ms, logs)

/-- `prepareManifests` over all injected files. -/
def prepareManifests (files : List (String × List ManifestObj)) :
    List ManifestObj × List String :=
  match files with
  | [] => ([], [])
  | (path, objs) :: rest =>
    let (ms₁, logs₁) := prepareManifestsFile path objs
    let (ms₂, logs₂) := prepareManifests rest
    (ms₁ ++ ms₂, logs₁ ++ logs₂)

/-! ### The manifest-path guard of `e2eTests` (cmd/uptest/main.go) -/

/-- The example paths built by `e2eTests`: the comma-separated manifest list
with empty entries dropped (the per-path `filepath.Join(cd, filepath.Clean e)`
does not affect emptiness and is not modelled). -/
def examplePathsOf (manifestList : String) : List String :=
  (goSplitChar ',' manifestList).filter (fun e => e ≠ "")

/-- `e2eTests` aborts with `No manifest to test provided.` exactly when the
path list is empty; this is the only emptiness guard, and it runs before any
decoding or filtering. -/
def e2eNoManifestGuard (manifestList : String) : Bool :=
  (examplePathsOf manifestList).isEmpty

/-! ### Concrete inputs used by the claim witnesses and counterexamples -/

/-- A delete command line of `03-delete.yaml` (the per-resource delete
commands all start this way; hook commands do not, their text being a plain
script path). -/
def isDeleteCmd (l : String) : Bool :=
  goStartsWith l "- command: ${KUBECTL} delete "

/-- The update-parameter JSON object of the spec's round-trip scenario. -/
def updateParamLit : String :=
  "\x7b\"spec\":\x7b\"forProvider\":\x7b\"size\":\"large\"\x7d\x7d\x7d"

/-- Options with the CLI defaults (`--default-timeout 1200`,
`--default-conditions Ready`). -/
def defaultOpts : AutomatedTest :=
  { DefaultTimeout := 1200, DefaultConditions := ["Ready"] }

/-- A manifest carrying a timeout annotation larger than the default. -/
def timeoutManifest : ManifestObj :=
  { Kind := "Bucket", Group := "s3.aws.upbound.io", Name := "big",
    Anns := [(AnnotationKeyTimeout, "2000")] }

/-- A manifest carrying an empty conditions annotation. -/
def emptyCondsManifest : ManifestObj :=
  { Kind := "Bucket", Group := "s3.aws.upbound.io", Name := "empty-conds",
    Anns := [(AnnotationKeyConditions, "")] }

/-- A manifest carrying the spec's round-trip update-parameter value. -/
def updateParamManifest : ManifestObj :=
  { Kind := "Bucket", Group := "s3.aws.upbound.io", Name := "upd",
    Anns := [(AnnotationKeyUpdateParameter, updateParamLit)] }

/-- A test case with plan-wide timeout 10. -/
def c6Tc : TestCase := { Timeout := 10 }

/-- A resource whose own timeout (5) differs from the plan-wide timeout of
`c6Tc` (10). -/
def c6Res : Resource :=
  { Name := "example-bucket", KindGroup := "s3.aws.upbound.io",
    Conditions := ["Test"], Timeout := 5 }

/-- The resource `processManifest` extracts from `timeoutManifest` under
`defaultOpts` (timeout raised to 2000 by the annotation). -/
def timeoutResource : Resource :=
  { Name := "big", KindGroup := "bucket.s3.aws.upbound.io",
    Timeout := 2000, Conditions := ["Ready"] }

/-- The resource `processManifest` extracts from `emptyCondsManifest` under
`defaultOpts` (conditions replaced by `[""]`). -/
def emptyCondsResource : Resource :=
  { Name := "empty-conds", KindGroup := "bucket.s3.aws.upbound.io",
    Timeout := 1200, Conditions := [""] }

/-- The resource `processManifest` extracts from `updateParamManifest` under
`defaultOpts`. -/
def updateParamResource : Resource :=
  { Name := "upd", KindGroup := "bucket.s3.aws.upbound.io",
    Timeout := 1200, Conditions := ["Ready"],
    UpdateParameter := updateParamLit,
    UpdateAssertKey := ".spec.forProvider.size", UpdateAssertValue := "large" }

/-! ### Test fixtures of internal/templates/renderer_test.go

The constants below are the inputs and expected outputs of the
`SuccessMultipleResource` case of `TestRender`.  The theorems following them
pin the modelled templates, byte for byte, to the expected file contents of
the repository's own renderer test. -/

/-- The `bucketManifest` constant of renderer_test.go. -/
def bucketManifest : String :=
  "apiVersion: s3.aws.crossplane.io/v1beta1\nkind: Bucket\nmetadata:\n  name: test-bucket\nspec:\n  deletionPolicy: Delete\n"

/-- The `claimManifest` constant of renderer_test.go. -/
def claimManifest : String :=
  "apiVersion: gcp.platformref.upbound.io/v1alpha1\nkind: Cluster\nmetadata:\n  name: test-cluster-claim\n  namespace: upbound-system\nspec:\n  parameters:\n    nodes:\n      count: 1\n      size: small\n"

/-- The `secretManifest` constant of renderer_test.go. -/
def secretManifest : String :=
  "apiVersion: v1\nkind: Secret\nmetadata:\n  name: test-secret\n  namespace: upbound-system\ntype: Opaque\ndata:\n  key: dmFsdWU=\n"

/-- The bucket resource of the `SuccessMultipleResource` test case. -/
def bucketRes : Resource :=
  { YAML := bucketManifest
    Name := "example-bucket"
    KindGroup := "s3.aws.upbound.io"
    PreAssertScriptPath := "/tmp/bucket/pre-assert.sh"
    PostDeleteScriptPath := "/tmp/bucket/post-delete.sh"
    Conditions := ["Test"] }

/-- The claim resource of the `SuccessMultipleResource` test case. -/
def claimRes : Resource :=
  { YAML := claimManifest
    Name := "test-cluster-claim"
    KindGroup := "cluster.gcp.platformref.upbound.io"
    Namespace := "upbound-system"
    PostAssertScriptPath := "/tmp/claim/post-assert.sh"
    PreDeleteScriptPath := "/tmp/claim/pre-delete.sh"
    Conditions := ["Ready", "Synced"] }

/-- The secret resource of the `SuccessMultipleResource` test case. -/
def secretRes : Resource :=
  { YAML := secretManifest
    Name := "test-secret"
    KindGroup := "secret."
    Namespace := "upbound-system" }

/-- The test case of `SuccessMultipleResource`. -/
def tcMulti : TestCase :=
  { Timeout := 10
    SetupScriptPath := "/tmp/setup.sh"
    TeardownScriptPath := "/tmp/teardown.sh" }

/-- Expected `00-apply.yaml` of `SuccessMultipleResource`. -/
def expectedApplyMulti : String :=
  "# This file belongs to the resource apply step.\n" ++
  "apiVersion: kuttl.dev/v1beta1\n" ++
  "kind: TestStep\n" ++
  "commands:\n" ++
  "- command: /tmp/setup.sh\n" ++
  "---\n" ++ bucketManifest ++ "---\n" ++ claimManifest ++ "---\n" ++ secretManifest

/-- Expected `00-assert.yaml` of `SuccessMultipleResource`. -/
def expectedApplyAssertMulti : String :=
  "# This assert file belongs to the resource apply step.\n" ++
  "apiVersion: kuttl.dev/v1beta1\n" ++
  "kind: TestAssert\n" ++
  "timeout: 10\n" ++
  "commands:\n" ++
  "- command: ${KUBECTL} annotate managed --all upjet.upbound.io/test=true --overwrite\n" ++
  "- script: echo \"Dump MR manifests for the apply assertion step:\"; ${KUBECTL} get managed -o yaml\n" ++
  "- script: echo \"Dump Claim manifests for the apply assertion step:\" || ${KUBECTL} get claim --all-namespaces -o yaml\n" ++
  "- command: /tmp/bucket/pre-assert.sh\n" ++
  "- command: ${KUBECTL} wait s3.aws.upbound.io/example-bucket --for=condition=Test --timeout 10s\n" ++
  "- command: ${KUBECTL} wait cluster.gcp.platformref.upbound.io/test-cluster-claim --for=condition=Ready --timeout 10s --namespace upbound-system\n" ++
  "- command: ${KUBECTL} wait cluster.gcp.platformref.upbound.io/test-cluster-claim --for=condition=Synced --timeout 10s --namespace upbound-system\n" ++
  "- command: /tmp/claim/post-assert.sh\n"

/-- Expected `01-update.yaml` of `SuccessMultipleResource`. -/
def expectedUpdateMulti : String :=
  "# This file belongs to the resource update step.\n" ++
  "apiVersion: kuttl.dev/v1beta1\n" ++
  "kind: TestStep\n" ++
  "commands:\n"

/-- Expected `01-assert.yaml` of `SuccessMultipleResource`. -/
def expectedUpdateAssertMulti : String :=
  "# This assert file belongs to the resource update step.\n" ++
  "apiVersion: kuttl.dev/v1beta1\n" ++
  "kind: TestAssert\n" ++
  "timeout: 10\n" ++
  "commands:\n" ++
  "- script: echo \"Dump MR manifests for the update assertion step:\"; ${KUBECTL} get managed -o yaml\n"

/-- Expected `02-import.yaml` of `SuccessMultipleResource`. -/
def expectedImportMulti : String :=
  "# This file belongs to the resource import step.\n" ++
  "apiVersion: kuttl.dev/v1beta1\n" ++
  "kind: TestStep\n" ++
  "commands:\n" ++
  "- command: ${KUBECTL} scale deployment crossplane -n ${CROSSPLANE_NAMESPACE} --replicas=0\n" ++
  "- script: ${KUBECTL} -n ${CROSSPLANE_NAMESPACE} get deploy --no-headers -o custom-columns=\":metadata.name\" | grep \"provider-\" | xargs ${KUBECTL} -n ${CROSSPLANE_NAMESPACE} scale deploy --replicas=0\n" ++
  "- command: ${KUBECTL} --subresource=status patch s3.aws.upbound.io/example-bucket --type=merge -p \x27\x7b\"status\":\x7b\"conditions\":[]\x7d\x7d\x27\n" ++
  "- script: ${KUBECTL} annotate s3.aws.upbound.io/example-bucket uptest-old-id=$(${KUBECTL} get s3.aws.upbound.io/example-bucket -o=jsonpath=\x27\x7b.status.atProvider.id\x7d\x27) --overwrite\n" ++
  "- command: ${KUBECTL} scale deployment crossplane -n ${CROSSPLANE_NAMESPACE} --replicas=1\n" ++
  "- script: ${KUBECTL} -n ${CROSSPLANE_NAMESPACE} get deploy --no-headers -o custom-columns=\":metadata.name\" | grep \"provider-\" | xargs ${KUBECTL} -n ${CROSSPLANE_NAMESPACE} scale deploy --replicas=1\n"

/-- Expected `02-assert.yaml` of `SuccessMultipleResource`. -/
def expectedImportAssertMulti : String :=
  "# This assert file belongs to the resource import step.\n" ++
  "apiVersion: kuttl.dev/v1beta1\n" ++
  "kind: TestAssert\n" ++
  "timeout: 10\n" ++
  "commands:\n" ++
  "- script: echo \"Dump MR manifests for the import assertion step:\"; ${KUBECTL} get managed -o yaml\n" ++
  "- command: ${KUBECTL} wait s3.aws.upbound.io/example-bucket --for=condition=Test --timeout 10s\n" ++
  "- script: new_id=\"$(${KUBECTL} get s3.aws.upbound.io/example-bucket -o=jsonpath=\x27\x7b.status.atProvider.id\x7d\x27)\" && old_id=\"$(${KUBECTL} get s3.aws.upbound.io/example-bucket -o=jsonpath=\x27\x7b.metadata.annotations.uptest-old-id\x7d\x27)\" && [ \"$new_id\" = \"$old_id\" ]\n"

/-- Expected `03-delete.yaml` of `SuccessMultipleResource`: delete commands in
apply order (bucket first), with hooks interleaved and the secret omitted. -/
def expectedDeleteMulti : String :=
  "# This file belongs to the resource delete step.\n" ++
  "apiVersion: kuttl.dev/v1beta1\n" ++
  "kind: TestStep\n" ++
  "commands:\n" ++
  "- command: ${KUBECTL} delete s3.aws.upbound.io/example-bucket --wait=false --ignore-not-found\n" ++
  "- command: /tmp/bucket/post-delete.sh\n" ++
  "- command: /tmp/claim/pre-delete.sh\n" ++
  "- command: ${KUBECTL} delete cluster.gcp.platformref.upbound.io/test-cluster-claim --wait=false --namespace upbound-system --ignore-not-found\n"

/-- Expected `03-assert.yaml` of `SuccessMultipleResource`. -/
def expectedDeleteAssertMulti : String :=
  "# This assert file belongs to the resource delete step.\n" ++
  "apiVersion: kuttl.dev/v1beta1\n" ++
  "kind: TestAssert\n" ++
  "timeout: 10\n" ++
  "commands:\n" ++
  "- script: echo \"Dump MR manifests for the delete assertion step:\"; ${KUBECTL} get managed -o yaml\n" ++
  "- script: echo \"Dump Claim manifests for the delete assertion step:\" || ${KUBECTL} get claim --all-namespaces -o yaml\n" ++
  "- command: ${KUBECTL} wait s3.aws.upbound.io/example-bucket --for=delete --timeout 10s\n" ++
  "- script: ${KUBECTL} wait cluster.gcp.platformref.upbound.io/test-cluster-claim --for=delete --timeout 10s --namespace upbound-system\n" ++
  "- command: ${KUBECTL} wait managed --all --for=delete --timeout 10s\n" ++
  "- command: /tmp/teardown.sh\n"

set_option maxRecDepth 40000 in
/-- The modelled renderer reproduces every expected file of the
`SuccessMultipleResource` case of `TestRender` byte for byte. -/
theorem render_pinned_by_test :
    Render tcMulti [bucketRes, claimRes, secretRes] false =
      [("00-apply.yaml", expectedApplyMulti),
       ("00-assert.yaml", expectedApplyAssertMulti),
       ("01-update.yaml", expectedUpdateMulti),
       ("01-assert.yaml", expectedUpdateAssertMulti),
       ("02-import.yaml", expectedImportMulti),
       ("02-assert.yaml", expectedImportAssertMulti),
       ("03-delete.yaml", expectedDeleteMulti),
       ("03-assert.yaml", expectedDeleteAssertMulti)] := by
  rfl

set_option maxRecDepth 40000 in
/-- The modelled renderer reproduces the `SuccessMultipleResource` case of
`TestRenderWithSkipDelete` (same inputs, `skipDelete = true`): the `03-*`
files are omitted and the remaining files are unchanged. -/
theorem render_skipdelete_pinned_by_test :
    Render tcMulti [bucketRes, claimRes, secretRes] true =
      [("00-apply.yaml", expectedApplyMulti),
       ("00-assert.yaml", expectedApplyAssertMulti),
       ("01-update.yaml", expectedUpdateMulti),
       ("01-assert.yaml", expectedUpdateAssertMulti),
       ("02-import.yaml", expectedImportMulti),
       ("02-assert.yaml", expectedImportAssertMulti)] := by
  rfl

/-! ### Supporting lemmas -/

/-- Folding string concatenation from any accumulator. -/
theorem foldl_append_str (ls : List String) (a : String) :
    ls.foldl (fun r s => r ++ s) a = a ++ ls.foldl (fun r s => r ++ s) "" := by
  induction ls generalizing a with
  | nil => simp
  | cons b bs ih =>
    simp only [List.foldl_cons]
    rw [ih (a ++ b), ih (("" : String) ++ b)]
    simp [String.append_assoc]

theorem join_cons_str (a : String) (ls : List String) :
    String.join (a :: ls) = a ++ String.join ls := by
  simp only [String.join, List.foldl_cons]
  rw [foldl_append_str ls (("" : String) ++ a)]
  simp

theorem join_append_str (ls₁ ls₂ : List String) :
    String.join (ls₁ ++ ls₂) = String.join ls₁ ++ String.join ls₂ := by
  simp only [String.join, List.foldl_append]
  rw [foldl_append_str ls₂ (ls₁.foldl (fun r s => r ++ s) "")]

theorem applyEnvUpdate_fields (env : String) (ex ex' : Resource)
    (h : applyEnvUpdate env ex = .ok ex') :
    ex'.Timeout = ex.Timeout ∧ ex'.Conditions = ex.Conditions := by
  unfold applyEnvUpdate at h
  split at h
  · cases h; exact ⟨rfl, rfl⟩
  · split at h
    · cases h
    · cases h; exact ⟨rfl, rfl⟩

theorem applyTimeoutAnn_max (m : ManifestObj) (tcT : Int) (ex ex' : Resource) (tcT' : Int)
    (hle : ex.Timeout ≤ tcT)
    (h : applyTimeoutAnn m tcT ex = .ok (ex', tcT')) :
    tcT' = max tcT ex'.Timeout ∧ ex'.Conditions = ex.Conditions := by
  unfold applyTimeoutAnn at h
  split at h
  · cases h
    exact ⟨by omega, rfl⟩
  · split at h
    · cases h
    · cases h
      refine ⟨?_, rfl⟩
      simp only []
      omega

theorem applyCondsAnn_timeout (m : ManifestObj) (ex : Resource) :
    (applyCondsAnn m ex).Timeout = ex.Timeout := by
  unfold applyCondsAnn
  split <;> rfl

theorem applyCondsAnn_set (m : ManifestObj) (ex : Resource) (v : String)
    (hv : m.Anns.lookup AnnotationKeyConditions = some v) :
    (applyCondsAnn m ex).Conditions = goSplitChar ',' v := by
  unfold applyCondsAnn
  rw [hv]

theorem applyHookAnns_fields (m : ManifestObj) (ex : Resource) :
    (applyHookAnns m ex).Timeout = ex.Timeout ∧
    (applyHookAnns m ex).Conditions = ex.Conditions ∧
    (applyHookAnns m ex).UpdateAssertKey = ex.UpdateAssertKey ∧
    (applyHookAnns m ex).UpdateAssertValue = ex.UpdateAssertValue := by
  unfold applyHookAnns
  refine ⟨?_, ?_, ?_, ?_⟩ <;> (simp only []; repeat' split) <;> rfl

theorem applyUpdateAnn_timeout (m : ManifestObj) (tcT : Int) (ex ex' : Resource) (tcT' : Int)
    (h : applyUpdateAnn m tcT ex = .ok (ex', tcT')) :
    tcT' = tcT ∧ ex'.Timeout = ex.Timeout ∧ ex'.Conditions = ex.Conditions := by
  unfold applyUpdateAnn at h
  split at h
  · cases h; exact ⟨rfl, rfl, rfl⟩
  · split at h
    · cases h
    · cases h; exact ⟨rfl, rfl, rfl⟩

theorem processManifest_max (opts : AutomatedTest) (env : String) (tcT : Int)
    (m : ManifestObj) (r : Resource) (tcT' : Int)
    (hd : opts.DefaultTimeout ≤ tcT)
    (h : processManifest opts env tcT m = .ok (r, tcT')) :
    tcT' = max tcT r.Timeout ∧ opts.DefaultTimeout ≤ tcT' := by
  simp only [processManifest] at h
  split at h
  · cases h
  · split at h
    · cases h
    · rename_i scr1 ex1 h1 scr2 ex2 tcT2 h2
      obtain ⟨e1t, -⟩ := applyEnvUpdate_fields _ _ _ h1
      obtain ⟨h2m, -⟩ := applyTimeoutAnn_max _ _ _ _ _ (by rw [e1t]; exact hd) h2
      obtain ⟨hut, hT, -⟩ := applyUpdateAnn_timeout _ _ _ _ _ h
      have hh := (applyHookAnns_fields m (applyCondsAnn m ex2)).1
      have hc := applyCondsAnn_timeout m ex2
      constructor
      · rw [hut, h2m, hT, hh, hc]
      · rw [hut, h2m]
        omega

theorem le_foldl_max (rs : List Resource) (a : Int) :
    a ≤ rs.foldl (fun acc r => max acc r.Timeout) a := by
  induction rs generalizing a with
  | nil => simp
  | cons r rest ih =>
    simp only [List.foldl_cons]
    exact le_trans (le_max_left a r.Timeout) (ih (max a r.Timeout))

theorem prepareConfigGo_max (opts : AutomatedTest) (env : String) :
    ∀ (ms : List ManifestObj) (tcT T : Int) (rs : List Resource),
    opts.DefaultTimeout ≤ tcT →
    prepareConfigGo opts env ms tcT = .ok (T, rs) →
    T = rs.foldl (fun a r => max a r.Timeout) tcT := by
  intro ms
  induction ms with
  | nil =>
    intro tcT T rs _ h
    simp only [prepareConfigGo] at h
    cases h
    rfl
  | cons m rest ih =>
    intro tcT T rs hd h
    simp only [prepareConfigGo] at h
    cases hp : processManifest opts env tcT m with
    | error e => simp only [hp] at h; cases h
    | ok rt =>
      obtain ⟨r, tcT'⟩ := rt
      simp only [hp] at h
      cases hrec : prepareConfigGo opts env rest tcT' with
      | error e => simp only [hrec] at h; cases h
      | ok Trs =>
        obtain ⟨T2, rs2⟩ := Trs
        simp only [hrec] at h
        cases h
        obtain ⟨hmax, hd2⟩ := processManifest_max opts env tcT m r tcT' hd hp
        have hih := ih tcT' _ _ hd2 hrec
        simp only [List.foldl_cons]
        rw [hih, hmax]

/-! ### Prefix and line-classification lemmas -/

/-- `String.data` distributes over append. -/
theorem data_append_str (a b : String) : (a ++ b).data = a.data ++ b.data := rfl

/-- A string starts with any of its prefixes. -/
theorem goStartsWith_append (pre rest : String) :
    goStartsWith (pre ++ rest) pre = true := by
  unfold goStartsWith
  rw [data_append_str]
  exact List.isPrefixOf_iff_prefix.mpr (List.prefix_append _ _)

/-- A common prefix cancels in a prefix test. -/
theorem goStartsWith_cancel (c x p : String) :
    goStartsWith (c ++ x) (c ++ p) = goStartsWith x p := by
  unfold goStartsWith
  rw [data_append_str, data_append_str, Bool.eq_iff_iff,
    List.isPrefixOf_iff_prefix, List.isPrefixOf_iff_prefix]
  exact List.prefix_append_right_inj c.data

/-- Every rendered per-resource delete command is classified as a delete
command line. -/
theorem isDeleteCmd_deleteCmdLine (r : Resource) :
    isDeleteCmd (deleteCmdLine r) = true := by
  unfold isDeleteCmd deleteCmdLine
  simp only [String.append_assoc]
  exact goStartsWith_append _ _

/-- A hook command line is not a delete command line, provided the hook path
does not itself spell a kubectl delete invocation. -/
theorem isDeleteCmd_hookLine (p : String)
    (hp : goStartsWith p "${KUBECTL} delete " = false) :
    isDeleteCmd ("- command: " ++ p) = false := by
  unfold isDeleteCmd
  have h : ("- command: ${KUBECTL} delete " : String) =
      "- command: " ++ "${KUBECTL} delete " := rfl
  rw [h, goStartsWith_cancel]
  exact hp

/-- One resource's delete-phase block contains exactly one delete command. -/
theorem deleteResLines_filter (r : Resource)
    (h1 : goStartsWith r.PreDeleteScriptPath "${KUBECTL} delete " = false)
    (h2 : goStartsWith r.PostDeleteScriptPath "${KUBECTL} delete " = false) :
    (deleteResLines r).filter isDeleteCmd = [deleteCmdLine r] := by
  unfold deleteResLines optCmd
  rw [List.filter_append, List.filter_append]
  have hpre : (if r.PreDeleteScriptPath = "" then ([] : List String)
      else ["- command: " ++ r.PreDeleteScriptPath]).filter isDeleteCmd = [] := by
    split
    · rfl
    · simp [List.filter, isDeleteCmd_hookLine _ h1]
  have hpost : (if r.PostDeleteScriptPath = "" then ([] : List String)
      else ["- command: " ++ r.PostDeleteScriptPath]).filter isDeleteCmd = [] := by
    split
    · rfl
    · simp [List.filter, isDeleteCmd_hookLine _ h2]
  rw [hpre, hpost]
  simp [List.filter, isDeleteCmd_deleteCmdLine]

/-- The delete commands of `03-delete.yaml` are exactly one per non-secret
resource, in apply order. -/
theorem deleteLines_filter (rs : List Resource)
    (hh : ∀ r ∈ rs, goStartsWith r.PreDeleteScriptPath "${KUBECTL} delete " = false ∧
      goStartsWith r.PostDeleteScriptPath "${KUBECTL} delete " = false) :
    (deleteLines rs).filter isDeleteCmd = (rs.filter nonSecret).map deleteCmdLine := by
  unfold deleteLines
  rw [List.filter_append]
  have hhead : (["# This file belongs to the resource delete step.",
      "apiVersion: kuttl.dev/v1beta1", "kind: TestStep",
      "commands:"].filter isDeleteCmd) = [] := by decide
  rw [hhead, List.nil_append]
  induction rs with
  | nil => rfl
  | cons r rest ih =>
    have hr := hh r (by simp)
    have hrest : ∀ x ∈ rest, goStartsWith x.PreDeleteScriptPath "${KUBECTL} delete " = false ∧
        goStartsWith x.PostDeleteScriptPath "${KUBECTL} delete " = false := by
      intro x hx
      exact hh x (by simp [hx])
    cases hns : nonSecret r with
    | false =>
      rw [List.filter_cons_of_neg (by simp [hns])]
      exact ih hrest
    | true =>
      rw [List.filter_cons_of_pos hns]
      simp only [List.flatMap_cons, List.map_cons, List.filter_append]
      rw [deleteResLines_filter r hr.1 hr.2, ih hrest]
      rfl

/-- Splitting `00-assert.yaml` around one non-secret resource's block. -/
theorem applyAssertLines_decomp (tc : TestCase) (rs₁ rs₂ : List Resource) (r : Resource)
    (hr : nonSecret r = true) :
    applyAssertLines tc (rs₁ ++ r :: rs₂) =
      applyAssertHeader tc ++
        (rs₁.filter nonSecret).flatMap (applyAssertResLines tc.Timeout) ++
        applyAssertResLines tc.Timeout r ++
        (rs₂.filter nonSecret).flatMap (applyAssertResLines tc.Timeout) := by
  unfold applyAssertLines
  rw [List.filter_append, List.filter_cons_of_pos hr]
  simp [List.flatMap_append, List.append_assoc]

/-! ### Canonical-form lemmas for `convertToJSONPath` determinism -/

/-- On values all of whose nested objects are single-entry, normalization is
the identity (fuel-indexed strong induction). -/
theorem normalize_fix_aux : ∀ n : Nat,
    (∀ j : Json, jsonFuel j ≤ n → allSingle j = true → normalize j = j) ∧
    (∀ xs : List Json, elemsFuel xs ≤ n → allSingleList xs = true → normalizeList xs = xs) := by
  intro n
  induction n using Nat.strong_induction_on with
  | _ n ih =>
    constructor
    · intro j hf ha
      match j with
      | .obj [] => simp [allSingle] at ha
      | .obj [(k, v)] =>
        have hv : allSingle v = true := by simpa [allSingle] using ha
        have hfv : jsonFuel v < n := by
          have : jsonFuel (.obj [(k, v)]) = jsonFuel v + 2 := by
            simp [jsonFuel, entsFuel]
          omega
        have hnv := (ih (jsonFuel v) hfv).1 v le_rfl hv
        simp [normalize, normalizeEntries, sortEntries, insertEntry, hnv]
      | .obj ((a) :: (b) :: rest) => simp [allSingle] at ha
      | .arr xs =>
        have hx : allSingleList xs = true := by simpa [allSingle] using ha
        have hfx : elemsFuel xs < n := by
          have : jsonFuel (.arr xs) = elemsFuel xs + 1 := by simp [jsonFuel]
          omega
        have := (ih (elemsFuel xs) hfx).2 xs le_rfl hx
        simp [normalize, this]
      | .str s => rfl
      | .num m => rfl
      | .boolean b => rfl
      | .null => rfl
    · intro xs hf ha
      match xs with
      | [] => rfl
      | x :: rest =>
        have hx : allSingle x = true ∧ allSingleList rest = true := by
          simpa [allSingleList, Bool.and_eq_true] using ha
        have hf1 : jsonFuel x < n := by
          have : elemsFuel (x :: rest) = jsonFuel x + elemsFuel rest + 1 := by
            simp [elemsFuel]
          omega
        have hf2 : elemsFuel rest < n := by
          have : elemsFuel (x :: rest) = jsonFuel x + elemsFuel rest + 1 := by
            simp [elemsFuel]
          have hpos : 1 ≤ jsonFuel x := by
            match x with
            | .obj es => simp [jsonFuel]
            | .arr es => simp [jsonFuel]
            | .str s => simp [jsonFuel]
            | .num m => simp [jsonFuel]
            | .boolean b => simp [jsonFuel]
            | .null => simp [jsonFuel]
          omega
        have e1 := (ih (jsonFuel x) hf1).1 x le_rfl hx.1
        have e2 := (ih (elemsFuel rest) hf2).2 rest le_rfl hx.2
        simp [normalizeList, e1, e2]

/-- On values all of whose nested objects are single-entry, normalization is
the identity. -/
theorem normalize_fix (j : Json) (h : allSingle j = true) : normalize j = j :=
  (normalize_fix_aux (jsonFuel j)).1 j le_rfl h

/-- A present update-parameter value that parses sets the derived JSON-path
pair on the resource. -/
theorem applyUpdateAnn_set (m : ManifestObj) (tcT : Int) (ex ex' : Resource) (tcT' : Int)
    (v : String) (hv : m.Anns.lookup AnnotationKeyUpdateParameter = some v)
    (data : List (String × Json)) (hparse : jsonParseObj v = some data)
    (h : applyUpdateAnn m tcT ex = .ok (ex', tcT')) :
    ex'.UpdateAssertKey = (convertToJSONPath data "").1 ∧
    ex'.UpdateAssertValue = (convertToJSONPath data "").2 := by
  unfold applyUpdateAnn at h
  simp only [hv, hparse] at h
  cases h
  exact ⟨rfl, rfl⟩

/-! ### The claims -/

/-- C1 (counterexample): for the renderer test's plan `[bucket, claim,
secret]` — two non-secret resources in apply order — the delete commands of
`03-delete.yaml` appear in apply order (bucket first), not in the reverse of
apply order as the claim states. -/
theorem delete_order_counterexample :
    (([bucketRes, claimRes, secretRes].filter nonSecret).length = 2) ∧
    (deleteLines [bucketRes, claimRes, secretRes]).filter isDeleteCmd =
      [deleteCmdLine bucketRes, deleteCmdLine claimRes] ∧
    (deleteLines [bucketRes, claimRes, secretRes]).filter isDeleteCmd ≠
      (([bucketRes, claimRes, secretRes].filter nonSecret).reverse).map deleteCmdLine := by
  refine ⟨by decide, by decide, by decide⟩

/-- C1 (amended): for every plan, the rendered delete phase contains exactly
one non-blocking (`--wait=false`), ignore-not-found delete command per
non-secret resource, and these commands appear in apply order (not reversed);
the hook-path side conditions rule out hook scripts whose path itself spells
a kubectl delete invocation. -/
theorem delete_commands_forward_order (rs : List Resource)
    (hh : ∀ r ∈ rs, goStartsWith r.PreDeleteScriptPath "${KUBECTL} delete " = false ∧
      goStartsWith r.PostDeleteScriptPath "${KUBECTL} delete " = false) :
    (deleteLines rs).filter isDeleteCmd = (rs.filter nonSecret).map deleteCmdLine ∧
    (∀ r : Resource, ∃ a, deleteCmdLine r = a ++ " --ignore-not-found") ∧
    (∀ r : Resource, ∃ a b, deleteCmdLine r = a ++ " --wait=false" ++ b) := by
  refine ⟨deleteLines_filter rs hh, ?_, ?_⟩
  · intro r
    exact ⟨"- command: ${KUBECTL} delete " ++ r.KindGroup ++ "/" ++ r.Name ++
      " --wait=false" ++ nsFlag r, rfl⟩
  · intro r
    refine ⟨"- command: ${KUBECTL} delete " ++ r.KindGroup ++ "/" ++ r.Name,
      nsFlag r ++ " --ignore-not-found", ?_⟩
    simp [deleteCmdLine, String.append_assoc]

/-- C1 (witness): the amended statement evaluated on the renderer test's
plan. -/
theorem delete_commands_forward_order_witness :
    (deleteLines [bucketRes, claimRes, secretRes]).filter isDeleteCmd =
      ([bucketRes, claimRes, secretRes].filter nonSecret).map deleteCmdLine :=
  (delete_commands_forward_order [bucketRes, claimRes, secretRes] (by decide)).1

/-- C2: a skipped phase's two files are absent from the rendered output map
entirely — `SkipUpdate` removes `01-update.yaml`/`01-assert.yaml`,
`SkipImport` removes `02-import.yaml`/`02-assert.yaml`, and the `skipDelete`
argument removes `03-delete.yaml`/`03-assert.yaml`. -/
theorem skip_flags_omit_phase_files (tc : TestCase) (rs : List Resource) (skipDelete : Bool) :
    (tc.SkipUpdate = true →
      (Render tc rs skipDelete).lookup "01-update.yaml" = none ∧
      (Render tc rs skipDelete).lookup "01-assert.yaml" = none) ∧
    (tc.SkipImport = true →
      (Render tc rs skipDelete).lookup "02-import.yaml" = none ∧
      (Render tc rs skipDelete).lookup "02-assert.yaml" = none) ∧
    (skipDelete = true →
      (Render tc rs skipDelete).lookup "03-delete.yaml" = none ∧
      (Render tc rs skipDelete).lookup "03-assert.yaml" = none) := by
  rcases h1 : tc.SkipUpdate <;> rcases h2 : tc.SkipImport <;> rcases h3 : skipDelete <;>
    simp [Render, fileBodies, goStartsWith, h1, h2, h3, List.lookup, List.filter,
      List.isPrefixOf]

/-- C2 (witness): all three omissions evaluated on a concrete render. -/
theorem skip_flags_omit_phase_files_witness :
    (Render { Timeout := 10, SkipUpdate := true, SkipImport := true } [] true).lookup
        "01-update.yaml" = none ∧
    (Render { Timeout := 10, SkipUpdate := true, SkipImport := true } [] true).lookup
        "02-import.yaml" = none ∧
    (Render { Timeout := 10, SkipUpdate := true, SkipImport := true } [] true).lookup
        "03-delete.yaml" = none := by
  have h := skip_flags_omit_phase_files
    { Timeout := 10, SkipUpdate := true, SkipImport := true } [] true
  exact ⟨(h.1 rfl).1, (h.2.1 rfl).1, (h.2.2 rfl).1⟩

/-- C3: for every successfully extracted manifest set, the built test case's
timeout is the maximum of the plan default and every resource's resolved
timeout, and is never below the default. -/
theorem effective_timeout_is_max (opts : AutomatedTest) (env : String)
    (ms : List ManifestObj) (tc : TestCase) (rs : List Resource)
    (h : prepareConfig opts env ms = .ok (tc, rs)) :
    tc.Timeout = rs.foldl (fun a r => max a r.Timeout) opts.DefaultTimeout ∧
    opts.DefaultTimeout ≤ tc.Timeout := by
  simp only [prepareConfig] at h
  cases hgo : prepareConfigGo opts env ms opts.DefaultTimeout with
  | error e => simp only [hgo] at h; cases h
  | ok Trs =>
    obtain ⟨T, rsx⟩ := Trs
    simp only [hgo] at h
    cases h
    have hmax := prepareConfigGo_max opts env ms opts.DefaultTimeout _ _ le_rfl hgo
    refine ⟨hmax, ?_⟩
    rw [hmax]
    exact le_foldl_max _ opts.DefaultTimeout

/-- C3 (witness): a 2000-second resource timeout raises the 1200-second
default. -/
theorem effective_timeout_is_max_witness :
    ({ Timeout := 2000 } : TestCase).Timeout =
      [timeoutResource].foldl (fun a r => max a r.Timeout) defaultOpts.DefaultTimeout ∧
    defaultOpts.DefaultTimeout ≤ ({ Timeout := 2000 } : TestCase).Timeout :=
  effective_timeout_is_max defaultOpts "" [timeoutManifest]
    { Timeout := 2000 } [timeoutResource] (by rfl)

/-- C4: a resource of the generic Secret kind contributes nothing to any
command file of any phase (assert-apply, update, assert-update, import,
assert-import, delete, assert-delete render identically with it removed),
while its manifest does appear as an applied document of the apply file. -/
theorem secret_resources_never_in_commands (tc : TestCase) (rs₁ rs₂ : List Resource)
    (s : Resource) (hs : s.KindGroup = "secret.") :
    applyAssertLines tc (rs₁ ++ s :: rs₂) = applyAssertLines tc (rs₁ ++ rs₂) ∧
    updateAssertLines tc (rs₁ ++ s :: rs₂) = updateAssertLines tc (rs₁ ++ rs₂) ∧
    importLines (rs₁ ++ s :: rs₂) = importLines (rs₁ ++ rs₂) ∧
    importAssertLines tc (rs₁ ++ s :: rs₂) = importAssertLines tc (rs₁ ++ rs₂) ∧
    deleteLines (rs₁ ++ s :: rs₂) = deleteLines (rs₁ ++ rs₂) ∧
    deleteAssertLines tc (rs₁ ++ s :: rs₂) = deleteAssertLines tc (rs₁ ++ rs₂) ∧
    (∃ a b, applyFile tc (rs₁ ++ s :: rs₂) = a ++ ("---\n" ++ s.YAML) ++ b) := by
  have hns : nonSecret s = false := by simp [nonSecret, hs]
  have hig : importGated s = false := by simp [importGated, hns]
  refine ⟨?_, ?_, ?_, ?_, ?_, ?_, ?_⟩
  · simp [applyAssertLines, List.filter_append, hns]
  · simp [updateAssertLines, List.filter_append, hns]
  · simp [importLines, List.filter_append, hig]
  · simp [importAssertLines, List.filter_append, hig]
  · simp [deleteLines, List.filter_append, hns]
  · simp [deleteAssertLines, List.filter_append, hns]
  · refine ⟨"# This file belongs to the resource apply step.\n" ++
      (if tc.SetupScriptPath = "" then ""
       else "apiVersion: kuttl.dev/v1beta1\nkind: TestStep\ncommands:\n- command: " ++
         tc.SetupScriptPath ++ "\n") ++
      String.join (rs₁.map (fun r => "---\n" ++ r.YAML)),
      String.join (rs₂.map (fun r => "---\n" ++ r.YAML)), ?_⟩
    simp only [applyFile, List.map_append, List.map_cons, join_append_str, join_cons_str]
    simp [String.append_assoc]

/-- C4 (witness): the renderer test's secret contributes nothing to the
assert-apply and delete files. -/
theorem secret_resources_never_in_commands_witness :
    applyAssertLines tcMulti ([bucketRes, claimRes] ++ secretRes :: []) =
      applyAssertLines tcMulti ([bucketRes, claimRes] ++ []) ∧
    deleteLines ([bucketRes, claimRes] ++ secretRes :: []) =
      deleteLines ([bucketRes, claimRes] ++ []) := by
  have h := secret_resources_never_in_commands tcMulti [bucketRes, claimRes] [] secretRes
    (by rfl)
  exact ⟨h.1, h.2.2.2.2.1⟩

/-- C5 (counterexample): an empty post-filtering resource list does not make
plan construction fail — `prepareConfig` succeeds with zero resources and the
renderer still emits all eight phase files. -/
theorem empty_plan_counterexample :
    prepareConfig defaultOpts "" [] = .ok ({ Timeout := 1200 }, []) ∧
    (Render { Timeout := 1200 } [] false).map Prod.fst =
      ["00-apply.yaml", "00-assert.yaml", "01-update.yaml", "01-assert.yaml",
       "02-import.yaml", "02-assert.yaml", "03-delete.yaml", "03-assert.yaml"] := by
  exact ⟨rfl, rfl⟩

/-- C5 (amended): an empty post-filtering resource list is accepted: plan
construction succeeds with zero resources and all eight phase files are
rendered (with empty per-resource sections); the only emptiness guard in the
pipeline is `e2eTests`' pre-filtering check that the manifest path list is
non-empty (`No manifest to test provided.`). -/
theorem empty_plan_not_rejected (opts : AutomatedTest) (env : String) :
    prepareConfig opts env [] =
      .ok ({ Timeout := opts.DefaultTimeout, SetupScriptPath := opts.SetupScriptPath
             TeardownScriptPath := opts.TeardownScriptPath }, []) ∧
    (Render { Timeout := opts.DefaultTimeout, SetupScriptPath := opts.SetupScriptPath
              TeardownScriptPath := opts.TeardownScriptPath } [] false).map Prod.fst =
      ["00-apply.yaml", "00-assert.yaml", "01-update.yaml", "01-assert.yaml",
       "02-import.yaml", "02-assert.yaml", "03-delete.yaml", "03-assert.yaml"] ∧
    e2eNoManifestGuard "" = true := by
  exact ⟨rfl, rfl, rfl⟩

/-- C6 (counterexample): a resource with its own timeout 5 in a plan with
timeout 10 gets a wait command with `--timeout 10s` — the plan-wide timeout —
and no wait command with `--timeout 5s` exists, contradicting the claim that
the wait uses the resource's own timeout. -/
theorem assert_wait_timeout_counterexample :
    c6Res.Timeout = 5 ∧ c6Tc.Timeout = 10 ∧
    applyAssertLines c6Tc [c6Res] =
      applyAssertHeader c6Tc ++
        ["- command: ${KUBECTL} wait s3.aws.upbound.io/example-bucket --for=condition=Test --timeout 10s"] ∧
    "- command: ${KUBECTL} wait s3.aws.upbound.io/example-bucket --for=condition=Test --timeout 5s" ∉
      applyAssertLines c6Tc [c6Res] := by
  refine ⟨rfl, rfl, by rfl, by decide⟩

/-- C6 (amended): in assert-apply, every non-secret resource contributes
exactly one wait command per condition, addressed to `kindGroup/name`, with a
namespace qualifier exactly when the namespace is non-empty, and with the
test case's (plan-wide) timeout — not the resource's own. -/
theorem assert_wait_commands_shape (tc : TestCase) (rs₁ rs₂ : List Resource) (r : Resource)
    (hr : nonSecret r = true) :
    applyAssertLines tc (rs₁ ++ r :: rs₂) =
      applyAssertHeader tc ++
        (rs₁.filter nonSecret).flatMap (applyAssertResLines tc.Timeout) ++
        applyAssertResLines tc.Timeout r ++
        (rs₂.filter nonSecret).flatMap (applyAssertResLines tc.Timeout) ∧
    applyAssertResLines tc.Timeout r =
      optCmd r.PreAssertScriptPath ++ r.Conditions.map (waitLine tc.Timeout r) ++
        optCmd r.PostAssertScriptPath ∧
    ∀ c, waitLine tc.Timeout r c =
      "- command: ${KUBECTL} wait " ++ r.KindGroup ++ "/" ++ r.Name ++
        " --for=condition=" ++ c ++ " --timeout " ++ toString tc.Timeout ++ "s" ++
        (if r.Namespace = "" then "" else " --namespace " ++ r.Namespace) :=
  ⟨applyAssertLines_decomp tc rs₁ rs₂ r hr, rfl, fun _ => rfl⟩

/-- C6 (witness): the amended statement evaluated on the renderer test's
namespaced claim. -/
theorem assert_wait_commands_shape_witness :
    applyAssertLines tcMulti ([bucketRes] ++ claimRes :: [secretRes]) =
      applyAssertHeader tcMulti ++
        ([bucketRes].filter nonSecret).flatMap (applyAssertResLines tcMulti.Timeout) ++
        applyAssertResLines tcMulti.Timeout claimRes ++
        ([secretRes].filter nonSecret).flatMap (applyAssertResLines tcMulti.Timeout) :=
  (assert_wait_commands_shape tcMulti [bucketRes] [secretRes] claimRes (by decide)).1

/-- C7: a resource whose update-parameter annotation is
`{"spec":{"forProvider":{"size":"large"}}}` gets `UpdateAssertKey`
`.spec.forProvider.size` and `UpdateAssertValue` `large`. -/
theorem update_parameter_round_trip (opts : AutomatedTest) (env : String)
    (tcT : Int) (m : ManifestObj) (r : Resource) (tcT' : Int)
    (hv : m.Anns.lookup AnnotationKeyUpdateParameter = some updateParamLit)
    (h : processManifest opts env tcT m = .ok (r, tcT')) :
    r.UpdateAssertKey = ".spec.forProvider.size" ∧ r.UpdateAssertValue = "large" := by
  simp only [processManifest] at h
  split at h
  · cases h
  · split at h
    · cases h
    · rename_i scr1 ex1 h1 scr2 ex2 tcT2 h2
      have hparse : jsonParseObj updateParamLit =
          some [("spec", Json.obj [("forProvider", Json.obj [("size", Json.str "large")])])] := by
        rfl
      obtain ⟨hk, hval⟩ := applyUpdateAnn_set _ _ _ _ _ _ hv _ hparse h
      rw [hk, hval]
      exact ⟨rfl, rfl⟩

/-- C7 (witness): the round trip evaluated on a concrete manifest. -/
theorem update_parameter_round_trip_witness :
    updateParamResource.UpdateAssertKey = ".spec.forProvider.size" ∧
    updateParamResource.UpdateAssertValue = "large" :=
  update_parameter_round_trip defaultOpts "" 1200 updateParamManifest
    updateParamResource 1200 (by rfl) (by rfl)

/-- C8: the preparation loop keeps exactly the decoded objects without the
manual-intervention key (in order, stamped with the file path) and, for each
skipped object, emits one diagnostic naming the object and the intervention
reason; skipping is not an error path and never aborts the loop. -/
theorem manual_intervention_skip (path : String) (objs : List ManifestObj) :
    (prepareManifestsFile path objs).1 =
      (objs.filter (fun u => (u.Anns.lookup annKeyManualIntervention).isNone)).map
        (fun u => { u with FilePath := path }) ∧
    (prepareManifestsFile path objs).2 =
      objs.filterMap (fun u => (u.Anns.lookup annKeyManualIntervention).map (skipMessage u)) := by
  induction objs with
  | nil => simp [prepareManifestsFile]
  | cons u rest ih =>
    cases h : u.Anns.lookup annKeyManualIntervention <;>
      simp [prepareManifestsFile, h, ih.1, ih.2]

/-- C9: `convertToJSONPath` descends through the first key only and returns
at the first non-map value; two entry-order representations of the same map
agree when every nested map has exactly one key, and there are equal-as-maps
inputs with a multi-key level on which the result differs with the iteration
order. -/
theorem first_key_nondeterminism :
    (∀ es₁ es₂ : List (String × Json),
      allSingle (Json.obj es₁) = true → allSingle (Json.obj es₂) = true →
      normalize (Json.obj es₁) = normalize (Json.obj es₂) →
      convertToJSONPath es₁ "" = convertToJSONPath es₂ "") ∧
    (∀ (f : Nat) (k : String) (v : Json) (es : List (String × Json)) (p : String),
      (∀ es', v ≠ Json.obj es') →
      convertToJSONPathF f ((k, v) :: es) p = (p ++ "." ++ k, renderValue v)) ∧
    (∃ es₁ es₂ : List (String × Json),
      normalize (Json.obj es₁) = normalize (Json.obj es₂) ∧
      convertToJSONPath es₁ "" ≠ convertToJSONPath es₂ "") := by
  refine ⟨?_, ?_, ?_⟩
  · intro es₁ es₂ h1 h2 hn
    have e1 := normalize_fix _ h1
    have e2 := normalize_fix _ h2
    rw [e1, e2] at hn
    cases hn
    rfl
  · intro f k v es p hv
    match v, hv with
    | Json.arr xs, _ => cases f <;> rfl
    | Json.str s, _ => cases f <;> rfl
    | Json.num n, _ => cases f <;> rfl
    | Json.boolean b, _ => cases f <;> rfl
    | Json.null, _ => cases f <;> rfl
    | Json.obj es', hv => exact absurd rfl (hv es')
  · refine ⟨[("a", Json.str "x"), ("b", Json.str "y")],
      [("b", Json.str "y"), ("a", Json.str "x")], by rfl, by decide⟩

/-- C9 (witness): determinism applied at the single-key update parameter. -/
theorem first_key_nondeterminism_witness :
    convertToJSONPath [("spec", Json.obj [("size", Json.str "large")])] "" =
      convertToJSONPath [("spec", Json.obj [("size", Json.str "large")])] "" :=
  first_key_nondeterminism.1 _ _ (by rfl) (by rfl) rfl

/-- C10: a present conditions annotation always replaces the default
condition list with its comma-split; the empty string yields exactly `[""]`
— one empty-string condition — never the default and never the empty list. -/
theorem conditions_split_replaces_defaults (opts : AutomatedTest) (env : String)
    (tcT : Int) (m : ManifestObj) (v : String) (r : Resource) (tcT' : Int)
    (hv : m.Anns.lookup AnnotationKeyConditions = some v)
    (h : processManifest opts env tcT m = .ok (r, tcT')) :
    r.Conditions = goSplitChar ',' v ∧
    (v = "" → r.Conditions = [""] ∧ r.Conditions ≠ ([] : List String) ∧
      (opts.DefaultConditions ≠ [""] → r.Conditions ≠ opts.DefaultConditions)) := by
  simp only [processManifest] at h
  split at h
  · cases h
  · split at h
    · cases h
    · rename_i scr1 ex1 h1 scr2 ex2 tcT2 h2
      have hcondU := applyUpdateAnn_timeout _ _ _ _ _ h
      have hcondH := (applyHookAnns_fields m (applyCondsAnn m ex2)).2.1
      have hcondC := applyCondsAnn_set m ex2 v hv
      have hall : r.Conditions = goSplitChar ',' v := by
        rw [hcondU.2.2, hcondH, hcondC]
      refine ⟨hall, ?_⟩
      intro hve
      subst hve
      rw [hall]
      refine ⟨by decide, by decide, ?_⟩
      intro hd
      exact fun hc => hd (by rw [← hc]; decide)

/-- C10 (witness): an empty conditions annotation yields exactly `[""]`. -/
theorem conditions_split_witness :
    emptyCondsResource.Conditions = goSplitChar ',' "" ∧
    ("" = "" → emptyCondsResource.Conditions = [""] ∧
      emptyCondsResource.Conditions ≠ ([] : List String) ∧
      (defaultOpts.DefaultConditions ≠ [""] →
        emptyCondsResource.Conditions ≠ defaultOpts.DefaultConditions)) :=
  conditions_split_replaces_defaults defaultOpts "" 1200 emptyCondsManifest ""
    emptyCondsResource 1200 (by rfl) (by rfl)

end Uptest
